import Mathlib

/-!
Shallow embedding of the container lifecycle orchestrator
(`src/app/docker_manager.py`, class `DockerManager`).

The Python class keeps an in-memory dict `self.containers` mapping a short
instance id to a metadata dict, a capacity bound `self.max_containers`
and a `public_host` string.  We model the dict as an association list
(`List (String × Metadata)`) with Python-dict semantics: assignment to an
existing key overwrites in place, `del` removes the key, iteration follows
list order.

Every interaction with the Docker engine (image pull, container run/stop/
remove, network create/remove, status reload) is an external effect whose
outcome the Python code cannot control; each operation therefore takes the
engine outcomes as explicit parameters and returns, besides its result and
the successor state, the list of engine calls it performed (`Event`s), so
that ordering properties of provisioning and teardown can be stated on the
trace.  Timestamps are `Nat` seconds (the Python code stores ISO strings
and compares float second differences; only ordering and differences
matter to the code).
-/

set_option linter.unusedVariables false

namespace QaTestSuit

/-- Engine calls performed by the orchestrator, in the order the Python
code issues them.  The `stale*` constructors are the pre-start hygiene
removals of leftovers from a previous run (`_start_dependency` lines
99–104 and `_create_network` lines 74–78); they are distinct from the
teardown events `stopC`/`removeC`/`removeNetwork` issued when tearing an
instance down. -/
inductive Event where
  | pullImage (image : String)
  | staleStop (name : String)
  | staleRemove (name : String)
  | staleNetRemove (name : String)
  | createNetwork (name : String)
  | runDep (depId : String)
  | attachAlias (depId : String)
  | waitDep (depId : String) (ms : Nat)
  | runPrimary (name : String) (env : List String)
  | stopC (name : String)
  | removeC (name : String)
  | removeNetwork (name : String)
  deriving DecidableEq

/-- Outcome of one engine stop/remove attempt on a container:
success, `docker.errors.NotFound` (tolerated), or another engine error. -/
inductive EngineResult where
  | ok
  | notFound
  | engineError (msg : String)
  deriving DecidableEq

/-- Record kept per started dependency (`_start_dependency` return value,
lines 135–140; the live container handle is represented by its name). -/
structure DepInfo where
  dep_id : String
  container_name : String
  host_port : Nat
  deriving DecidableEq

/-- The metadata dict stored in `self.containers[instance_id]`
(`start_container` lines 227–242). -/
structure Metadata where
  instance_id : String
  image_id : String
  container_id : String
  container_name : String
  image_name : String
  exposed_port : Nat
  host_port : Nat
  url : String
  status : String
  created_at : Nat
  network_name : Option String
  dep_containers : List DepInfo
  deriving DecidableEq

/-- The orchestrator state: tracking map, capacity bound, public host. -/
structure DockerManager where
  containers : List (String × Metadata)
  max_containers : Nat
  public_host : String
  deriving DecidableEq

/-- Python `instance_id in self.containers`. -/
def memA (m : List (String × Metadata)) (k : String) : Bool :=
  m.any (fun p => p.1 == k)

/-- Python `self.containers[instance_id]` (read). -/
def lookupA (m : List (String × Metadata)) (k : String) : Option Metadata :=
  match m.find? (fun p => p.1 == k) with
  | some p => some p.2
  | none => none

/-- Python `self.containers[instance_id] = metadata`: overwrite in place if
the key exists, else append (dicts are insertion ordered). -/
def insertA (m : List (String × Metadata)) (k : String) (v : Metadata) :
    List (String × Metadata) :=
  if memA m k then m.map (fun p => if p.1 == k then (k, v) else p)
  else m ++ [(k, v)]

/-- Python `del self.containers[instance_id]`. -/
def eraseA (m : List (String × Metadata)) (k : String) :
    List (String × Metadata) :=
  m.filter (fun p => p.1 != k)

/-- One dependency descriptor dict as consumed by `_start_dependency`
(`dep_config`): logical id, image, exposed port, env, optional command and
entrypoint, optional readiness wait in milliseconds (default 30000 via
`dep_config.get("wait_time", 30000)`). -/
structure DepConfig where
  id : String
  image_name : String
  exposed_port : Nat
  env : List String
  command : Option (List String)
  entrypoint : Option (List String)
  wait_time : Option Nat
  deriving DecidableEq

/-- Engine outcomes for one `_start_dependency` call: whether the image
pull raises, whether a stale same-named container existed (and was
stopped/removed first), whether `containers.run` raises, and the host port
returned by `_find_available_port`. -/
structure DepEngine where
  pullFails : Option String
  stale : Bool
  runFails : Option String
  hostPort : Nat
  deriving DecidableEq

/-- A `DepEngine` on which every engine call succeeds. -/
def DepEngine.allOk : DepEngine := ⟨none, false, none, 0⟩

/-- `_start_dependency(dep_config, network_name)` (lines 91–140): pull the
image, force-remove a stale container of the same deterministic name,
run the container on the network, re-attach it with the alias equal to
the logical id, then sleep out the readiness wait.  A pull or run failure
propagates to the caller; nothing started here is undone. -/
def startDependency (dep : DepConfig) (eng : DepEngine) :
    Except String DepInfo × List Event :=
  match eng.pullFails with
  | some m =>
      (Except.error s!"Failed to pull image {dep.image_name}: {m}",
       [Event.pullImage dep.image_name])
  | none =>
    let cname := s!"qa-dep-{dep.id}"
    let t0 := [Event.pullImage dep.image_name]
      ++ (if eng.stale then [Event.staleStop cname, Event.staleRemove cname] else [])
    match eng.runFails with
    | some m => (Except.error m, t0)
    | none =>
        (Except.ok ⟨dep.id, cname, eng.hostPort⟩,
         t0 ++ [Event.runDep dep.id, Event.attachAlias dep.id,
                Event.waitDep dep.id (dep.wait_time.getD 30000)])

/-- The sequential dependency loop of `start_container` (lines 194–197):
start each dependency in declared order; the first failure aborts the loop
and propagates (already-started dependencies are not torn down). -/
def runDeps : List DepConfig → List DepEngine →
    Except String (List DepInfo) × List Event
  | [], _ => (Except.ok [], [])
  | d :: ds, engs =>
    match startDependency d (engs.headD DepEngine.allOk) with
    | (Except.error m, t) => (Except.error m, t)
    | (Except.ok info, t) =>
      match runDeps ds engs.tail with
      | (Except.error m, t2) => (Except.error m, t ++ t2)
      | (Except.ok infos, t2) => (Except.ok (info :: infos), t ++ t2)

/-- Engine outcomes for one `start_container` call: primary image pull,
stale network of the same name, per-dependency outcomes, primary
`containers.run`, the id produced by `shortuuid.uuid()[:8]`, the port from
`_find_available_port`, the runtime container id, and the current time. -/
structure StartEngine where
  pullPrimary : Option String
  netStale : Bool
  depEngines : List DepEngine
  runPrimary : Option String
  genId : String
  allocPort : Nat
  containerId : String
  now : Nat
  deriving DecidableEq

/-- The dict returned by a successful `start_container` (lines 246–257). -/
structure StartResult where
  instance_id : String
  image_id : String
  container_id : String
  container_name : String
  image_name : String
  host_port : Nat
  exposed_port : Nat
  url : String
  status : String
  created_at : Nat
  deriving DecidableEq

/-- Environment placeholder substitution (`start_container` lines 200–202). -/
def resolveEnv (env : List String) (publicHost : String) : List String :=
  env.map (fun e => e.replace "{PUBLIC_HOST}" publicHost)

/-- `start_container` (lines 142–260): capacity check, primary image pull,
id/name generation, optional network creation, sequential dependency
starts, env resolution, primary start, metadata insertion.  Every raised
exception is re-wrapped as `Failed to start container: {e}` (line 260);
the except block performs no cleanup of anything already started. -/
def start_container (st : DockerManager) (image_id image_name : String)
    (exposed_port : Nat) (env : List String) (dependencies : List DepConfig)
    (host_port : Option Nat) (command entrypoint : Option (List String))
    (eng : StartEngine) :
    Except String StartResult × DockerManager × List Event :=
  if st.containers.length ≥ st.max_containers then
    (Except.error
       s!"Failed to start container: Maximum container limit ({st.max_containers}) reached",
     st, [])
  else
    match eng.pullPrimary with
    | some m =>
        (Except.error s!"Failed to start container: Failed to pull image {image_name}: {m}",
         st, [Event.pullImage image_name])
    | none =>
      let instance_id := eng.genId
      let container_name := s!"qa-{image_id}-{instance_id}"
      let hp := host_port.getD eng.allocPort
      let network_name : Option String :=
        if dependencies.isEmpty then none
        else some s!"qa-net-{image_id}-{instance_id}"
      let netEvents : List Event :=
        match network_name with
        | some n =>
            (if eng.netStale then [Event.staleNetRemove n] else [])
              ++ [Event.createNetwork n]
        | none => []
      let pre := [Event.pullImage image_name] ++ netEvents
      match runDeps dependencies eng.depEngines with
      | (Except.error m, dt) =>
          (Except.error s!"Failed to start container: {m}", st, pre ++ dt)
      | (Except.ok depInfos, dt) =>
        let resolved_env := resolveEnv env st.public_host
        match eng.runPrimary with
        | some m =>
            (Except.error s!"Failed to start container: {m}", st,
             pre ++ dt ++ [Event.runPrimary container_name resolved_env])
        | none =>
          let url := s!"http://{st.public_host}:{hp}"
          let md : Metadata :=
            ⟨instance_id, image_id, eng.containerId, container_name, image_name,
             exposed_port, hp, url, "running", eng.now, network_name, depInfos⟩
          (Except.ok
             ⟨instance_id, image_id, eng.containerId, container_name, image_name,
              hp, exposed_port, url, "running", eng.now⟩,
           { st with containers := insertA st.containers instance_id md },
           pre ++ dt ++ [Event.runPrimary container_name resolved_env])

/-- Engine outcomes for one `stop_container` call: combined outcome of the
primary stop/remove block (lines 280–284) and of each dependency's
stop/remove block (lines 287–296), in dependency order. -/
structure StopEngine where
  primary : EngineResult
  deps : List EngineResult
  deriving DecidableEq

/-- A `StopEngine` on which every engine call succeeds. -/
def StopEngine.allOk : StopEngine := ⟨EngineResult.ok, []⟩

/-- The dict returned by a successful `stop_container` (lines 305–309). -/
structure StopResult where
  instance_id : String
  status : String
  message : String
  deriving DecidableEq

/-- Engine calls of one stop/remove block: a successful stop is followed by
a remove; a `NotFound` or other error on the stop skips the remove. -/
def stopAttemptTrace (name : String) (r : EngineResult) : List Event :=
  match r with
  | EngineResult.ok => [Event.stopC name, Event.removeC name]
  | EngineResult.notFound => [Event.stopC name]
  | EngineResult.engineError _ => [Event.stopC name]

/-- The dependency teardown loop of `stop_container` (lines 287–296):
every dependency is attempted regardless of the outcomes of earlier ones;
`NotFound` is tolerated silently and any other error is merely printed. -/
def depStopTrace : List DepInfo → List EngineResult → List Event
  | [], _ => []
  | d :: ds, engs =>
      stopAttemptTrace d.container_name (engs.headD EngineResult.ok)
        ++ depStopTrace ds engs.tail

/-- `stop_container` (lines 262–315): unknown id raises not-found; a
non-`NotFound` engine error while stopping the primary propagates to the
except block (lines 311–315), which deletes the tracking entry and
re-raises, skipping dependency and network teardown; otherwise teardown
runs primary, then each dependency, then network removal, then deletes the
tracking entry and reports success. -/
def stop_container (st : DockerManager) (iid : String) (eng : StopEngine) :
    Except String StopResult × DockerManager × List Event :=
  match lookupA st.containers iid with
  | none =>
      (Except.error s!"Failed to stop container: Container with instance_id {iid} not found",
       st, [])
  | some md =>
    match eng.primary with
    | EngineResult.engineError m =>
        (Except.error s!"Failed to stop container: {m}",
         { st with containers := eraseA st.containers iid },
         stopAttemptTrace md.container_name eng.primary)
    | _ =>
        (Except.ok ⟨iid, "stopped", "Container stopped and removed successfully"⟩,
         { st with containers := eraseA st.containers iid },
         stopAttemptTrace md.container_name eng.primary
           ++ depStopTrace md.dep_containers eng.deps
           ++ (match md.network_name with
               | some n => [Event.removeNetwork n]
               | none => []))

/-- `set_max_containers` (lines 416–418). -/
def set_max_containers (st : DockerManager) (m : Nat) : DockerManager :=
  { st with max_containers := m }

/-- `_calculate_uptime` (lines 33–51) on the elapsed whole seconds. -/
def calculate_uptime (created now : Nat) : String :=
  let seconds := now - created
  if seconds < 60 then s!"{seconds}s"
  else if seconds < 3600 then s!"{seconds / 60}m {seconds % 60}s"
  else s!"{seconds / 3600}h {(seconds % 3600) / 60}m"

/-- Outcome of the `container.reload()` call in `get_container_status`
(lines 335–341): a refreshed status string, `NotFound`, or another engine
error. -/
inductive ReloadResult where
  | status (s : String)
  | notFound
  | engineError (msg : String)
  deriving DecidableEq

/-- The dict returned by `get_container_status` (lines 343–356). -/
structure StatusInfo where
  instance_id : String
  image_id : String
  container_id : String
  container_name : String
  image_name : String
  host_port : Nat
  exposed_port : Nat
  url : String
  status : String
  running : Bool
  created_at : Nat
  uptime : String
  deriving DecidableEq

/-- `get_container_status` (lines 317–359): unknown id raises not-found;
a `NotFound` from `reload()` is converted into a *successful* answer with
status `"removed"` and `running = False` (lines 339–341); any other
reload error propagates wrapped.  The tracking map is never mutated. -/
def get_container_status (st : DockerManager) (iid : String)
    (reload : ReloadResult) (now : Nat) : Except String StatusInfo :=
  match lookupA st.containers iid with
  | none =>
      Except.error s!"Failed to get container status: Container with instance_id {iid} not found"
  | some md =>
    match reload with
    | ReloadResult.engineError m =>
        Except.error s!"Failed to get container status: {m}"
    | ReloadResult.status s =>
        Except.ok ⟨iid, md.image_id, md.container_id, md.container_name,
          md.image_name, md.host_port, md.exposed_port, md.url, s,
          s == "running", md.created_at, calculate_uptime md.created_at now⟩
    | ReloadResult.notFound =>
        Except.ok ⟨iid, md.image_id, md.container_id, md.container_name,
          md.image_name, md.host_port, md.exposed_port, md.url, "removed",
          false, md.created_at, calculate_uptime md.created_at now⟩

/-- The loop body of `list_containers` (lines 365–372) over the snapshot
of tracked ids, threading the state: a successful status query appends an
entry; a failed one silently deletes the id from the map. -/
def listGo (st : DockerManager) (keys : List String)
    (reloads : List ReloadResult) (now : Nat) :
    List StatusInfo × DockerManager :=
  match keys, reloads with
  | [], _ => ([], st)
  | k :: ks, rs =>
    match get_container_status st k (rs.headD (ReloadResult.status "running")) now with
    | Except.ok info =>
        let (rest, st2) := listGo st ks rs.tail now
        (info :: rest, st2)
    | Except.error _ =>
        let st1 := if memA st.containers k
          then { st with containers := eraseA st.containers k } else st
        listGo st1 ks rs.tail now

/-- `list_containers` (lines 361–374): iterate over `list(self.containers.keys())`,
query each id's status, collect the successes and delete the ids whose
query raised.  The reload outcome per id is passed positionally. -/
def list_containers (st : DockerManager) (reloads : List ReloadResult)
    (now : Nat) : List StatusInfo × DockerManager :=
  listGo st (st.containers.map (fun p => p.1)) reloads now

/-- The loop of `cleanup_stale_containers` (lines 399–408) over the
snapshot `list(self.containers.items())`: for each entry older than the
threshold, call `stop_container`, recording the id on success and the
error message on failure.  Ages are compared with a strict `>`. -/
def cleanupGo (st : DockerManager) (items : List (String × Metadata))
    (engs : List StopEngine) (now maxAge : Nat) :
    List String × List (String × String) × DockerManager :=
  match items with
  | [] => ([], [], st)
  | (iid, md) :: rest =>
    if now - md.created_at > maxAge then
      match stop_container st iid (engs.headD StopEngine.allOk) with
      | (Except.ok _, st1, _) =>
          let (c, e, st2) := cleanupGo st1 rest engs.tail now maxAge
          (iid :: c, e, st2)
      | (Except.error m, st1, _) =>
          let (c, e, st2) := cleanupGo st1 rest engs.tail now maxAge
          (c, (iid, m) :: e, st2)
    else
      cleanupGo st rest engs.tail now maxAge

/-- The dict returned by `cleanup_stale_containers` (lines 410–414);
`errors = []` stands for the Python `None`. -/
structure CleanupResult where
  cleaned : Nat
  cleaned_instances : List String
  errors : List (String × String)
  deriving DecidableEq

/-- `cleanup_stale_containers` (lines 394–414). -/
def cleanup_stale_containers (st : DockerManager) (engs : List StopEngine)
    (now maxAge : Nat) : CleanupResult × DockerManager :=
  match cleanupGo st st.containers engs now maxAge with
  | (c, e, st1) => (⟨c.length, c, e⟩, st1)

/-- The loop of `stop_all_containers` (lines 381–386) over the snapshot of
tracked ids. -/
def stopAllGo (st : DockerManager) (keys : List String)
    (engs : List StopEngine) :
    List StopResult × List (String × String) × DockerManager :=
  match keys with
  | [] => ([], [], st)
  | k :: ks =>
    match stop_container st k (engs.headD StopEngine.allOk) with
    | (Except.ok r, st1, _) =>
        let (c, e, st2) := stopAllGo st1 ks engs.tail
        (r :: c, e, st2)
    | (Except.error m, st1, _) =>
        let (c, e, st2) := stopAllGo st1 ks engs.tail
        (c, (k, m) :: e, st2)

/-- `stop_all_containers` (lines 376–392); the pair of result list and
error list stands for the returned dict. -/
def stop_all_containers (st : DockerManager) (engs : List StopEngine) :
    List StopResult × List (String × String) × DockerManager :=
  stopAllGo st (st.containers.map (fun p => p.1)) engs

/-- Checks whether an engine call tears down a resource of the running
instance (primary/dependency stop or remove, network removal), as opposed
to the pre-start hygiene removals of stale leftovers. -/
def isTeardown : Event → Bool
  | Event.stopC _ => true
  | Event.removeC _ => true
  | Event.removeNetwork _ => true
  | _ => false

/-- Projection of a trace onto the dependency-ordering alphabet used to
state claim C6: dependency container starts, readiness waits, and the
primary container start. -/
inductive RW where
  | run (depId : String)
  | wait (depId : String)
  | prim
  deriving DecidableEq

/-- Maps an engine call to its `RW` letter, dropping all other calls. -/
def rwProj : Event → Option RW
  | Event.runDep d => some (RW.run d)
  | Event.waitDep d _ => some (RW.wait d)
  | Event.runPrimary _ _ => some RW.prim
  | _ => none

/-! ### Concrete states and engines used by witnesses and counterexamples -/

/-- Metadata of a concrete dependency-free tracked instance `abc`. -/
def mdAbc : Metadata :=
  ⟨"abc", "app", "cid", "qa-app-abc", "app:latest", 80, 8080,
   "http://localhost:8080", "running", 50, none, []⟩

/-- A state tracking the single instance `abc`. -/
def stOne : DockerManager := ⟨[("abc", mdAbc)], 10, "localhost"⟩

/-- Metadata of a tracked instance `abc` owning a private network and one
dependency container. -/
def mdNet : Metadata :=
  ⟨"abc", "app", "cid", "qa-app-abc", "app:latest", 80, 8080,
   "http://localhost:8080", "running", 50, some "qa-net-app-abc",
   [⟨"d1", "qa-dep-d1", 1001⟩]⟩

/-- A state tracking the single network-owning instance `abc`. -/
def stNet : DockerManager := ⟨[("abc", mdNet)], 10, "localhost"⟩

/-- A state tracking two instances with capacity 2 (at its bound). -/
def stTwo : DockerManager :=
  ⟨[("abc", mdAbc), ("xyz", { mdAbc with instance_id := "xyz" })], 2, "localhost"⟩

/-- A full state: one tracked instance with a capacity bound of 1. -/
def stCapOne : DockerManager := ⟨[("abc", mdAbc)], 1, "localhost"⟩

/-- The empty orchestrator state. -/
def st0 : DockerManager := ⟨[], 10, "localhost"⟩

/-- A dependency descriptor `d1` with a 2000 ms readiness wait. -/
def depD1 : DepConfig := ⟨"d1", "img1", 5432, [], none, none, some 2000⟩

/-- A dependency descriptor `d2` with the default readiness wait. -/
def depD2 : DepConfig := ⟨"d2", "img2", 6379, [], none, none, none⟩

/-- Engine outcomes on which `d1` starts but `d2`'s container run raises. -/
def engDepFail : StartEngine :=
  ⟨none, false, [⟨none, false, none, 1001⟩, ⟨none, false, some "boom", 0⟩],
   none, "abc12345", 8080, "cid1", 100⟩

/-- Engine outcomes on which every provisioning step succeeds. -/
def engStartOk : StartEngine :=
  ⟨none, false, [⟨none, false, none, 1001⟩, ⟨none, false, none, 1002⟩],
   none, "abc12345", 8080, "cid1", 100⟩

/-- A fully successful engine whose generated id is the fresh `zzz99999`. -/
def engFresh : StartEngine :=
  ⟨none, false, [], none, "zzz99999", 9000, "cid2", 99⟩

/-- A fully successful engine whose generated id collides with the already
tracked id `abc`. -/
def engClash : StartEngine :=
  ⟨none, false, [], none, "abc", 9000, "cid2", 99⟩

/-! ### Basic lemmas about the tracking map -/

lemma lookupA_eraseA_self (m : List (String × Metadata)) (k : String) :
    lookupA (eraseA m k) k = none := by
  have h : (eraseA m k).find? (fun p => p.1 == k) = none := by
    rw [List.find?_eq_none]
    intro x hx
    rcases List.mem_filter.mp hx with ⟨_, h2⟩
    simpa using h2
  unfold lookupA
  rw [h]

lemma memA_eraseA_self (m : List (String × Metadata)) (k : String) :
    memA (eraseA m k) k = false := by
  unfold memA eraseA
  rw [List.any_eq_false]
  intro x hx
  rcases List.mem_filter.mp hx with ⟨_, h2⟩
  simpa using h2

lemma length_eraseA_le (m : List (String × Metadata)) (k : String) :
    (eraseA m k).length ≤ m.length :=
  List.length_filter_le _ m

lemma length_insertA (m : List (String × Metadata)) (k : String) (v : Metadata) :
    (insertA m k v).length = if memA m k then m.length else m.length + 1 := by
  unfold insertA
  split
  · simp [*]
  · simp [*]

/-! ### Lemmas about teardown traces -/

lemma stopC_mem_stopAttemptTrace (name : String) (r : EngineResult) :
    Event.stopC name ∈ stopAttemptTrace name r := by
  cases r <;> simp [stopAttemptTrace]

lemma stopC_mem_depStopTrace (d : DepInfo) :
    ∀ (ds : List DepInfo) (engs : List EngineResult), d ∈ ds →
      Event.stopC d.container_name ∈ depStopTrace ds engs
  | [], _, hd => absurd hd (List.not_mem_nil d)
  | a :: as, engs, hd => by
    rcases List.mem_cons.mp hd with h | h
    · subst h
      exact List.mem_append_left _ (stopC_mem_stopAttemptTrace _ _)
    · exact List.mem_append_right _ (stopC_mem_depStopTrace d as engs.tail h)

/-! ### Lemmas about the provisioning and teardown post-states -/

lemma start_container_state (st : DockerManager) (image_id image_name : String)
    (exposed_port : Nat) (env : List String) (dependencies : List DepConfig)
    (host_port : Option Nat) (command entrypoint : Option (List String))
    (eng : StartEngine) :
    (start_container st image_id image_name exposed_port env dependencies
        host_port command entrypoint eng).2.1.containers = st.containers ∨
    (st.containers.length < st.max_containers ∧
     ∃ v, (start_container st image_id image_name exposed_port env dependencies
        host_port command entrypoint eng).2.1.containers
          = insertA st.containers eng.genId v) := by
  by_cases hcap : st.containers.length ≥ st.max_containers
  · left
    simp [start_container, hcap]
  · cases hp : eng.pullPrimary with
    | some m => left; simp [start_container, hcap, hp]
    | none =>
      rcases hr : runDeps dependencies eng.depEngines with ⟨r, dt⟩
      cases r with
      | error m => left; simp [start_container, hcap, hp, hr]
      | ok infos =>
        cases hq : eng.runPrimary with
        | some m => left; simp [start_container, hcap, hp, hr, hq]
        | none =>
          right
          refine ⟨not_le.mp hcap, ?_⟩
          simp [start_container, hcap, hp, hr, hq]

lemma stop_container_state (st : DockerManager) (iid : String)
    (eng : StopEngine) :
    (stop_container st iid eng).2.1.containers = st.containers ∨
    (stop_container st iid eng).2.1.containers = eraseA st.containers iid := by
  cases hl : lookupA st.containers iid with
  | none => left; simp [stop_container, hl]
  | some md =>
    cases hp : eng.primary with
    | engineError m => right; simp [stop_container, hl, hp]
    | ok => right; simp [stop_container, hl, hp]
    | notFound => right; simp [stop_container, hl, hp]

/-! ### Claim C2: capacity is enforced by admission -/

/-- C2 (amended): `start_container` rejects a request with the capacity
error exactly when the tracked count is at least the configured maximum
(doing nothing else), a `start_container` from a state within capacity
leaves the tracked count within capacity, and `stop_container` never
increases the tracked count.  (`set_max_containers` can, however, lower
the maximum below the current count, so not *every* operation preserves
count ≤ maximum.) -/
theorem capacity_guard (st : DockerManager) (image_id image_name : String)
    (exposed_port : Nat) (env : List String) (dependencies : List DepConfig)
    (host_port : Option Nat) (command entrypoint : Option (List String))
    (eng : StartEngine) :
    (st.containers.length ≥ st.max_containers →
      start_container st image_id image_name exposed_port env dependencies
          host_port command entrypoint eng
        = (Except.error
             s!"Failed to start container: Maximum container limit ({st.max_containers}) reached",
           st, [])) ∧
    (st.containers.length ≤ st.max_containers →
      (start_container st image_id image_name exposed_port env dependencies
          host_port command entrypoint eng).2.1.containers.length
        ≤ st.max_containers) ∧
    (∀ iid seng,
      (stop_container st iid seng).2.1.containers.length ≤ st.containers.length) := by
  refine ⟨?_, ?_, ?_⟩
  · intro hcap
    simp [start_container, hcap]
  · intro hle
    rcases start_container_state st image_id image_name exposed_port env
      dependencies host_port command entrypoint eng with h | ⟨hlt, v, h⟩
    · rw [h]; exact hle
    · rw [h, length_insertA]
      split
      · exact hle
      · exact hlt
  · intro iid seng
    rcases stop_container_state st iid seng with h | h
    · rw [h]
    · rw [h]; exact length_eraseA_le _ _

/-- C2, counterexample: the claim also asserts that *every* operation
preserves tracked-count ≤ maximum, but `set_max_containers` (cited by the
claim) can lower the maximum below the current tracked count: from a state
with two tracked instances and maximum 2 (within capacity), setting the
maximum to 1 yields tracked count 2 > maximum 1. -/
theorem capacity_guard_cex :
    stTwo.containers.length ≤ stTwo.max_containers ∧
    (set_max_containers stTwo 1).containers.length
      > (set_max_containers stTwo 1).max_containers := by
  constructor
  · decide
  · decide

/-- C2, witness: with one tracked instance and maximum 1, admission is
refused with the capacity error and nothing is mutated, and stopping keeps
the count within bounds. -/
theorem capacity_guard_witness :
    start_container stCapOne "app" "app:latest" 80 [] [] none none none engFresh
      = (Except.error "Failed to start container: Maximum container limit (1) reached",
         stCapOne, []) ∧
    (stop_container stCapOne "abc" StopEngine.allOk).2.1.containers.length
      ≤ stCapOne.containers.length := by
  have h := capacity_guard stCapOne "app" "app:latest" 80 [] [] none none none engFresh
  exact ⟨h.1 (by decide), h.2.2 "abc" StopEngine.allOk⟩

/-! ### Claim C7: teardown is idempotent at the tracking level -/

/-- C7: a successful `stop_container` removes the id from tracking, and a
second `stop_container` call with the same id returns the not-found error,
performs no engine call (empty trace) and leaves the state unchanged. -/
theorem stop_idempotent_tracking (st : DockerManager) (iid : String)
    (eng1 eng2 : StopEngine) (r : StopResult) (st1 : DockerManager)
    (t1 : List Event)
    (h : stop_container st iid eng1 = (Except.ok r, st1, t1)) :
    stop_container st1 iid eng2
      = (Except.error s!"Failed to stop container: Container with instance_id {iid} not found",
         st1, []) := by
  have hc : st1.containers = eraseA st.containers iid := by
    unfold stop_container at h
    cases hl : lookupA st.containers iid with
    | none =>
        rw [hl] at h
        simp at h
    | some md =>
        rw [hl] at h
        cases hp : eng1.primary with
        | engineError m =>
            rw [hp] at h
            simp at h
        | ok =>
            rw [hp] at h
            simp only [Prod.mk.injEq] at h
            exact h.2.1.symm ▸ rfl
        | notFound =>
            rw [hp] at h
            simp only [Prod.mk.injEq] at h
            exact h.2.1.symm ▸ rfl
  have hl1 : lookupA st1.containers iid = none := by
    rw [hc]; exact lookupA_eraseA_self _ _
  unfold stop_container
  rw [hl1]

/-- C7, witness: on a concrete one-instance state, stopping succeeds and a
second stop reports the not-found error with no engine calls. -/
theorem stop_idempotent_tracking_witness :
    stop_container (stop_container stOne "abc" StopEngine.allOk).2.1
      "abc" StopEngine.allOk
      = (Except.error "Failed to stop container: Container with instance_id abc not found",
         (stop_container stOne "abc" StopEngine.allOk).2.1, []) :=
  stop_idempotent_tracking stOne "abc" StopEngine.allOk StopEngine.allOk
    ⟨"abc", "stopped", "Container stopped and removed successfully"⟩
    (stop_container stOne "abc" StopEngine.allOk).2.1
    [Event.stopC "qa-app-abc", Event.removeC "qa-app-abc"]
    rfl

/-! ### Claim C10: a failed teardown still purges tracking -/

/-- C10: when `stop_container` is called on a tracked id and stopping the
primary fails with a non-not-found engine error, the error is propagated
but the tracking entry is deleted first, and a retry of `stop_container`
on the same id reports not-found with no engine call. -/
theorem stop_error_purges_tracking (st : DockerManager) (iid : String)
    (eng : StopEngine) (md : Metadata) (m : String)
    (h1 : lookupA st.containers iid = some md)
    (h2 : eng.primary = EngineResult.engineError m) :
    (stop_container st iid eng).1 = Except.error s!"Failed to stop container: {m}" ∧
    (stop_container st iid eng).2.1.containers = eraseA st.containers iid ∧
    lookupA (stop_container st iid eng).2.1.containers iid = none ∧
    ∀ eng2, stop_container (stop_container st iid eng).2.1 iid eng2
      = (Except.error s!"Failed to stop container: Container with instance_id {iid} not found",
         (stop_container st iid eng).2.1, []) := by
  have hs : stop_container st iid eng
      = (Except.error s!"Failed to stop container: {m}",
         { st with containers := eraseA st.containers iid },
         stopAttemptTrace md.container_name eng.primary) := by
    unfold stop_container
    rw [h1, h2]
  refine ⟨by rw [hs], by rw [hs], ?_, ?_⟩
  · rw [hs]
    exact lookupA_eraseA_self _ _
  · intro eng2
    rw [hs]
    unfold stop_container
    rw [lookupA_eraseA_self]

/-- C10, witness: concrete run where the primary stop raises an engine
error; the id is purged and the retry reports not-found. -/
theorem stop_error_purges_tracking_witness :
    (stop_container stOne "abc" ⟨EngineResult.engineError "boom", []⟩).1
      = Except.error "Failed to stop container: boom" ∧
    lookupA (stop_container stOne "abc"
        ⟨EngineResult.engineError "boom", []⟩).2.1.containers "abc" = none := by
  have h := stop_error_purges_tracking stOne "abc"
    ⟨EngineResult.engineError "boom", []⟩ mdAbc "boom" rfl rfl
  exact ⟨h.1, h.2.2.1⟩

/-! ### Claim C4: teardown forward progress -/

/-- C4 (amended): when the stop of the primary container does not raise a
non-not-found engine error, teardown proceeds through every dependency and
the network-removal stage regardless of per-dependency engine errors, the
overall stop succeeds with the fixed success message (per-dependency
errors are only printed, not reported in the result), and the id is
purged.  (A non-not-found engine error on the *primary* stop instead
aborts teardown before the dependency and network stages.) -/
theorem stop_teardown_progress (st : DockerManager) (iid : String)
    (md : Metadata) (eng : StopEngine)
    (h1 : lookupA st.containers iid = some md)
    (h2 : ∀ m, eng.primary ≠ EngineResult.engineError m) :
    (stop_container st iid eng).1
      = Except.ok ⟨iid, "stopped", "Container stopped and removed successfully"⟩ ∧
    (∀ d ∈ md.dep_containers,
      Event.stopC d.container_name ∈ (stop_container st iid eng).2.2) ∧
    (∀ n, md.network_name = some n →
      Event.removeNetwork n ∈ (stop_container st iid eng).2.2) ∧
    memA (stop_container st iid eng).2.1.containers iid = false := by
  have hs : stop_container st iid eng
      = (Except.ok ⟨iid, "stopped", "Container stopped and removed successfully"⟩,
         { st with containers := eraseA st.containers iid },
         stopAttemptTrace md.container_name eng.primary
           ++ depStopTrace md.dep_containers eng.deps
           ++ (match md.network_name with
               | some n => [Event.removeNetwork n]
               | none => [])) := by
    unfold stop_container
    rw [h1]
    cases hp : eng.primary with
    | engineError m => exact absurd hp (h2 m)
    | ok => rfl
    | notFound => rfl
  refine ⟨by rw [hs], ?_, ?_, ?_⟩
  · intro d hd
    rw [hs]
    exact List.mem_append_left _
      (List.mem_append_right _ (stopC_mem_depStopTrace d md.dep_containers eng.deps hd))
  · intro n hn
    rw [hs, hn]
    exact List.mem_append_right _ (List.mem_singleton.mpr rfl)
  · rw [hs]
    exact memA_eraseA_self _ _

/-- C4, counterexample: on a tracked instance owning one dependency and a
network, a non-not-found engine error while stopping the primary aborts
teardown early — the trace is just the primary stop attempt, with no
dependency stop and no network removal — and the error is fatal to the
overall stop, contradicting the claim that teardown never aborts early
even when stopping the primary fails with an engine error. -/
theorem stop_teardown_progress_cex :
    (stop_container stNet "abc" ⟨EngineResult.engineError "boom", []⟩).2.2
      = [Event.stopC "qa-app-abc"] ∧
    Event.stopC "qa-dep-d1"
      ∉ (stop_container stNet "abc" ⟨EngineResult.engineError "boom", []⟩).2.2 ∧
    Event.removeNetwork "qa-net-app-abc"
      ∉ (stop_container stNet "abc" ⟨EngineResult.engineError "boom", []⟩).2.2 ∧
    (stop_container stNet "abc" ⟨EngineResult.engineError "boom", []⟩).1
      = Except.error "Failed to stop container: boom" := by
  refine ⟨rfl, by decide, by decide, rfl⟩

/-- C4, witness: on the same instance, a dependency stop failing with an
engine error does not prevent the dependency stop attempt, the network
removal, the overall success, or the purge. -/
theorem stop_teardown_progress_witness :
    (stop_container stNet "abc" ⟨EngineResult.ok, [EngineResult.engineError "weird"]⟩).1
      = Except.ok ⟨"abc", "stopped", "Container stopped and removed successfully"⟩ ∧
    Event.stopC "qa-dep-d1"
      ∈ (stop_container stNet "abc" ⟨EngineResult.ok, [EngineResult.engineError "weird"]⟩).2.2 ∧
    Event.removeNetwork "qa-net-app-abc"
      ∈ (stop_container stNet "abc" ⟨EngineResult.ok, [EngineResult.engineError "weird"]⟩).2.2 ∧
    memA (stop_container stNet "abc"
        ⟨EngineResult.ok, [EngineResult.engineError "weird"]⟩).2.1.containers "abc" = false := by
  have h := stop_teardown_progress stNet "abc" mdNet
    ⟨EngineResult.ok, [EngineResult.engineError "weird"]⟩ rfl
    (fun m hm => EngineResult.noConfusion hm)
  exact ⟨h.1, h.2.1 ⟨"d1", "qa-dep-d1", 1001⟩ (by decide), h.2.2.1 "qa-net-app-abc" rfl,
    h.2.2.2⟩

/-! ### Claim C1: dependency failure does not unwind -/

lemma startDependency_no_teardown (dep : DepConfig) (eng : DepEngine) :
    ((startDependency dep eng).2.all (fun e => !isTeardown e)) = true := by
  rcases eng with ⟨pf, stale, rf, hp⟩
  cases pf with
  | some m => rfl
  | none =>
    cases rf with
    | some m => cases stale <;> rfl
    | none => cases stale <;> rfl

lemma runDeps_no_teardown : ∀ (ds : List DepConfig) (engs : List DepEngine),
    ((runDeps ds engs).2.all (fun e => !isTeardown e)) = true
  | [], _ => rfl
  | d :: ds, engs => by
    have h1 := startDependency_no_teardown d (engs.headD DepEngine.allOk)
    have h2 := runDeps_no_teardown ds engs.tail
    unfold runDeps
    rcases hs : startDependency d (engs.headD DepEngine.allOk) with ⟨r, t⟩
    rw [hs] at h1
    cases r with
    | error m => exact h1
    | ok info =>
      rcases hr : runDeps ds engs.tail with ⟨r2, t2⟩
      rw [hr] at h2
      cases r2 with
      | error m => simp_all [List.all_append]
      | ok infos => simp_all [List.all_append]

/-- C1 (amended): when launching a dependency fails after the private
network and zero or more earlier dependencies have been started, the error
is propagated (wrapped as `Failed to start container: ...`) and no
instance is inserted into the tracking map — but, contrary to the claim,
nothing is unwound: the trace contains no stop, remove or network-removal
event, so the already-started dependencies and the private network are
left running untracked. -/
theorem start_dep_failure_no_unwind (st : DockerManager)
    (image_id image_name : String) (exposed_port : Nat) (env : List String)
    (dependencies : List DepConfig) (host_port : Option Nat)
    (command entrypoint : Option (List String)) (eng : StartEngine) (m : String)
    (hcap : st.containers.length < st.max_containers)
    (hpull : eng.pullPrimary = none)
    (hdep : (runDeps dependencies eng.depEngines).1 = Except.error m) :
    (start_container st image_id image_name exposed_port env dependencies
        host_port command entrypoint eng).1
      = Except.error s!"Failed to start container: {m}" ∧
    (start_container st image_id image_name exposed_port env dependencies
        host_port command entrypoint eng).2.1 = st ∧
    ((start_container st image_id image_name exposed_port env dependencies
        host_port command entrypoint eng).2.2.all (fun e => !isTeardown e)) = true := by
  have hcap1 : ¬ st.containers.length ≥ st.max_containers := not_le.mpr hcap
  rcases hr : runDeps dependencies eng.depEngines with ⟨r, dt⟩
  have hr1 : r = Except.error m := by rw [hr] at hdep; exact hdep
  subst hr1
  have hdt := runDeps_no_teardown dependencies eng.depEngines
  rw [hr] at hdt
  refine ⟨?_, ?_, ?_⟩
  · simp [start_container, hcap1, hpull, hr]
  · simp [start_container, hcap1, hpull, hr]
  · have hdt2 : ∀ x ∈ dt, isTeardown x = false := by
      simp only [List.all_eq_true, Bool.not_eq_true'] at hdt
      exact hdt
    cases dependencies with
    | nil => simp [runDeps] at hr
    | cons d ds =>
      cases hns : eng.netStale <;>
        simp [start_container, hcap1, hpull, hr, hns, List.all_append,
          isTeardown] <;>
        exact fun x hx => hdt2 x hx

/-- C1, counterexample: concrete provisioning of two dependencies where
the second container run raises: the network was created and `d1` was
started, the error propagates and nothing is tracked, yet the trace holds
no stop/remove/network-removal event — the claimed unwinding does not
happen. -/
theorem start_dep_failure_no_unwind_cex :
    (start_container st0 "app" "app:latest" 80 [] [depD1, depD2]
        none none none engDepFail).1
      = Except.error "Failed to start container: boom" ∧
    Event.createNetwork "qa-net-app-abc12345"
      ∈ (start_container st0 "app" "app:latest" 80 [] [depD1, depD2]
          none none none engDepFail).2.2 ∧
    Event.runDep "d1"
      ∈ (start_container st0 "app" "app:latest" 80 [] [depD1, depD2]
          none none none engDepFail).2.2 ∧
    ((start_container st0 "app" "app:latest" 80 [] [depD1, depD2]
        none none none engDepFail).2.2.all (fun e => !isTeardown e)) = true ∧
    (start_container st0 "app" "app:latest" 80 [] [depD1, depD2]
        none none none engDepFail).2.1 = st0 := by
  refine ⟨rfl, by decide, by decide, rfl, rfl⟩

/-- C1, witness: the amended theorem applied to the same concrete failing
provisioning request. -/
theorem start_dep_failure_no_unwind_witness :
    (start_container st0 "app" "app:latest" 80 [] [depD1, depD2]
        none none none engDepFail).2.1 = st0 ∧
    ((start_container st0 "app" "app:latest" 80 [] [depD1, depD2]
        none none none engDepFail).2.2.all (fun e => !isTeardown e)) = true := by
  have h := start_dep_failure_no_unwind st0 "app" "app:latest" 80 [] [depD1, depD2]
    none none none engDepFail "boom" (by decide) rfl rfl
  exact ⟨h.2.1, h.2.2⟩

/-! ### Claim C3: listing instances whose container is absent -/

/-- C3 (amended): when the runtime reports a tracked instance's container
absent (`NotFound` on reload), the status query *succeeds* with status
`"removed"`, so `list_containers` includes the entry and keeps the
instance tracked; an instance is silently evicted from the in-memory map
(and omitted from the result, with no error to the caller) only when the
status refresh fails with some *other* engine error. -/
theorem list_absent_entries :
    (∀ (st : DockerManager) (iid : String) (md : Metadata) (now : Nat),
      lookupA st.containers iid = some md →
      get_container_status st iid ReloadResult.notFound now
        = Except.ok ⟨iid, md.image_id, md.container_id, md.container_name,
            md.image_name, md.host_port, md.exposed_port, md.url, "removed",
            false, md.created_at, calculate_uptime md.created_at now⟩) ∧
    (∀ (k : String) (md : Metadata) (M now : Nat) (ph em : String),
      list_containers ⟨[(k, md)], M, ph⟩ [ReloadResult.engineError em] now
        = ([], ⟨[], M, ph⟩)) ∧
    (∀ (k : String) (md : Metadata) (M now : Nat) (ph : String),
      (list_containers ⟨[(k, md)], M, ph⟩ [ReloadResult.notFound] now).2
        = ⟨[(k, md)], M, ph⟩) := by
  refine ⟨?_, ?_, ?_⟩
  · intro st iid md now h1
    unfold get_container_status
    rw [h1]
  · intro k md M now ph em
    simp [list_containers, listGo, get_container_status, lookupA, memA, eraseA]
  · intro k md M now ph
    simp [list_containers, listGo, get_container_status, lookupA]

/-- C3, counterexample: a tracked instance whose container the runtime
reports absent is *returned* by `list_containers` (with status
`"removed"`) and is *not* evicted from the tracking map, contradicting the
claim. -/
theorem list_absent_entries_cex :
    (list_containers stOne [ReloadResult.notFound] 100).1.map
        (fun i => (i.instance_id, i.status)) = [("abc", "removed")] ∧
    (list_containers stOne [ReloadResult.notFound] 100).2 = stOne := by
  exact ⟨rfl, rfl⟩

/-- C3, witness: the amended theorem applied to the concrete one-instance
state, for an absent container and for a generic engine error. -/
theorem list_absent_entries_witness :
    get_container_status stOne "abc" ReloadResult.notFound 100
      = Except.ok ⟨"abc", "app", "cid", "qa-app-abc", "app:latest", 8080, 80,
          "http://localhost:8080", "removed", false, 50, "50s"⟩ ∧
    list_containers stOne [ReloadResult.engineError "E"] 100
      = ([], ⟨[], 10, "localhost"⟩) := by
  have h := list_absent_entries
  exact ⟨h.1 stOne "abc" mdAbc 100 rfl, h.2.1 "abc" mdAbc 10 100 "localhost" "E"⟩

/-! ### Claim C5: network created first, removed last -/

/-- C5: for a tracked instance owning a private network, whenever teardown
reaches the network-removal stage, the network removal is the final event
of the teardown trace and is preceded by the stop attempts of the primary
and of every dependency; symmetrically, during provisioning the network
creation event precedes every dependency container start.  (When the
primary stop fails with an engine error teardown aborts *without* removing
the network, which also never removes it before the containers.) -/
theorem network_lifecycle_order :
    (∀ (st : DockerManager) (iid : String) (md : Metadata) (eng : StopEngine)
        (n : String),
      lookupA st.containers iid = some md →
      md.network_name = some n →
      (∀ m, eng.primary ≠ EngineResult.engineError m) →
      ∃ pre, (stop_container st iid eng).2.2 = pre ++ [Event.removeNetwork n] ∧
        Event.stopC md.container_name ∈ pre ∧
        ∀ d ∈ md.dep_containers, Event.stopC d.container_name ∈ pre) ∧
    (∀ (st : DockerManager) (image_id image_name : String) (exposed_port : Nat)
        (env : List String) (dependencies : List DepConfig)
        (host_port : Option Nat) (command entrypoint : Option (List String))
        (eng : StartEngine),
      st.containers.length < st.max_containers →
      eng.pullPrimary = none →
      dependencies ≠ [] →
      ∃ pre post,
        (start_container st image_id image_name exposed_port env dependencies
            host_port command entrypoint eng).2.2
          = pre ++ Event.createNetwork s!"qa-net-{image_id}-{eng.genId}" :: post ∧
        ∀ d, Event.runDep d ∉ pre) := by
  constructor
  · intro st iid md eng n h1 h2 h3
    cases hp : eng.primary with
    | engineError m => exact absurd hp (h3 m)
    | ok =>
      refine ⟨stopAttemptTrace md.container_name EngineResult.ok
        ++ depStopTrace md.dep_containers eng.deps, ?_, ?_, ?_⟩
      · simp [stop_container, h1, hp, h2]
      · exact List.mem_append_left _ (stopC_mem_stopAttemptTrace _ _)
      · intro d hd
        exact List.mem_append_right _ (stopC_mem_depStopTrace d _ _ hd)
    | notFound =>
      refine ⟨stopAttemptTrace md.container_name EngineResult.notFound
        ++ depStopTrace md.dep_containers eng.deps, ?_, ?_, ?_⟩
      · simp [stop_container, h1, hp, h2]
      · exact List.mem_append_left _ (stopC_mem_stopAttemptTrace _ _)
      · intro d hd
        exact List.mem_append_right _ (stopC_mem_depStopTrace d _ _ hd)
  · intro st image_id image_name exposed_port env dependencies host_port
      command entrypoint eng hcap hpull hne
    have hcap1 : ¬ st.containers.length ≥ st.max_containers := not_le.mpr hcap
    have hie : dependencies.isEmpty = false := by
      cases dependencies with
      | nil => exact absurd rfl hne
      | cons d ds => rfl
    rcases hr : runDeps dependencies eng.depEngines with ⟨r, dt⟩
    cases hns : eng.netStale with
    | false =>
      refine ⟨[Event.pullImage image_name], ?_⟩
      cases r with
      | error m =>
        exact ⟨dt, by simp [start_container, hcap1, hpull, hie, hns, hr],
          by intro d; simp⟩
      | ok infos =>
        cases hq : eng.runPrimary with
        | some m =>
          refine ⟨dt ++ [Event.runPrimary s!"qa-{image_id}-{eng.genId}"
            (resolveEnv env st.public_host)], ?_, by intro d; simp⟩
          simp [start_container, hcap1, hpull, hie, hns, hr, hq]
        | none =>
          refine ⟨dt ++ [Event.runPrimary s!"qa-{image_id}-{eng.genId}"
            (resolveEnv env st.public_host)], ?_, by intro d; simp⟩
          simp [start_container, hcap1, hpull, hie, hns, hr, hq]
    | true =>
      refine ⟨[Event.pullImage image_name,
        Event.staleNetRemove s!"qa-net-{image_id}-{eng.genId}"], ?_⟩
      cases r with
      | error m =>
        exact ⟨dt, by simp [start_container, hcap1, hpull, hie, hns, hr],
          by intro d; simp⟩
      | ok infos =>
        cases hq : eng.runPrimary with
        | some m =>
          refine ⟨dt ++ [Event.runPrimary s!"qa-{image_id}-{eng.genId}"
            (resolveEnv env st.public_host)], ?_, by intro d; simp⟩
          simp [start_container, hcap1, hpull, hie, hns, hr, hq]
        | none =>
          refine ⟨dt ++ [Event.runPrimary s!"qa-{image_id}-{eng.genId}"
            (resolveEnv env st.public_host)], ?_, by intro d; simp⟩
          simp [start_container, hcap1, hpull, hie, hns, hr, hq]

/-- C5, witness: the theorem applied to a concrete teardown of the
network-owning instance and to a concrete provisioning with two
dependencies. -/
theorem network_lifecycle_order_witness :
    (∃ pre, (stop_container stNet "abc" StopEngine.allOk).2.2
        = pre ++ [Event.removeNetwork "qa-net-app-abc"] ∧
      Event.stopC "qa-app-abc" ∈ pre ∧
      ∀ d ∈ mdNet.dep_containers, Event.stopC d.container_name ∈ pre) ∧
    (∃ pre post,
      (start_container st0 "app" "app:latest" 80 [] [depD1, depD2]
          none none none engStartOk).2.2
        = pre ++ Event.createNetwork "qa-net-app-abc12345" :: post ∧
      ∀ d, Event.runDep d ∉ pre) := by
  exact ⟨network_lifecycle_order.1 stNet "abc" mdNet StopEngine.allOk
      "qa-net-app-abc" rfl rfl (fun m hm => EngineResult.noConfusion hm),
    network_lifecycle_order.2 st0 "app" "app:latest" 80 [] [depD1, depD2]
      none none none engStartOk (by decide) rfl (List.cons_ne_nil _ _)⟩

/-! ### Claim C6: dependencies start strictly in declared order -/

lemma startDependency_rw (dep : DepConfig) (eng : DepEngine) (info : DepInfo)
    (t : List Event) (h : startDependency dep eng = (Except.ok info, t)) :
    t.filterMap rwProj = [RW.run dep.id, RW.wait dep.id] := by
  rcases eng with ⟨pf, stale, rf, hp⟩
  cases pf with
  | some m => simp [startDependency] at h
  | none =>
    cases rf with
    | some m => simp [startDependency] at h
    | none =>
      cases stale <;>
      · simp only [startDependency, Prod.mk.injEq] at h
        rw [← h.2]
        rfl

lemma runDeps_rw : ∀ (ds : List DepConfig) (engs : List DepEngine)
    (infos : List DepInfo) (t : List Event),
    runDeps ds engs = (Except.ok infos, t) →
    t.filterMap rwProj = ds.flatMap (fun d => [RW.run d.id, RW.wait d.id])
  | [], engs, infos, t, h => by
      simp only [runDeps, Prod.mk.injEq] at h
      rw [← h.2]
      rfl
  | d :: ds, engs, infos, t, h => by
      rcases hs : startDependency d (engs.headD DepEngine.allOk) with ⟨r, t1⟩
      cases r with
      | error m =>
        unfold runDeps at h
        rw [hs] at h
        simp at h
      | ok info =>
        rcases hr : runDeps ds engs.tail with ⟨r2, t2⟩
        cases r2 with
        | error m =>
          unfold runDeps at h
          rw [hs, hr] at h
          simp at h
        | ok infos2 =>
          unfold runDeps at h
          rw [hs, hr] at h
          simp only [Prod.mk.injEq] at h
          rw [← h.2, List.filterMap_append,
            startDependency_rw d (engs.headD DepEngine.allOk) info t1 hs,
            runDeps_rw ds engs.tail infos2 t2 hr]
          simp

/-- C6: for a provisioning request whose dependency phase succeeds, the
trace projected onto dependency starts, readiness waits and the primary
start is exactly `run d1, wait d1, run d2, wait d2, …, primary`: the
dependencies start sequentially in declared order, each one's readiness
wait elapses before the next one starts, and the primary container starts
only after the last dependency's wait. -/
theorem dependency_order (st : DockerManager) (image_id image_name : String)
    (exposed_port : Nat) (env : List String) (dependencies : List DepConfig)
    (host_port : Option Nat) (command entrypoint : Option (List String))
    (eng : StartEngine) (infos : List DepInfo) (dt : List Event)
    (hcap : st.containers.length < st.max_containers)
    (hpull : eng.pullPrimary = none)
    (hdeps : runDeps dependencies eng.depEngines = (Except.ok infos, dt))
    (hrun : eng.runPrimary = none) :
    ((start_container st image_id image_name exposed_port env dependencies
        host_port command entrypoint eng).2.2).filterMap rwProj
      = dependencies.flatMap (fun d => [RW.run d.id, RW.wait d.id]) ++ [RW.prim] := by
  have hcap1 : ¬ st.containers.length ≥ st.max_containers := not_le.mpr hcap
  have hdt := runDeps_rw dependencies eng.depEngines infos dt hdeps
  cases dependencies with
  | nil =>
    cases hns : eng.netStale <;>
      simp [start_container, hcap1, hpull, hdeps, hrun, hns,
        List.filterMap_append, hdt, rwProj]
  | cons d ds =>
    cases hns : eng.netStale <;>
      simp [start_container, hcap1, hpull, hdeps, hrun, hns,
        List.filterMap_append, hdt, rwProj]

/-- C6, witness: concrete successful provisioning with dependencies
`[d1, d2]`: the projected trace is run `d1`, wait `d1`, run `d2`, wait
`d2`, then the primary start. -/
theorem dependency_order_witness :
    ((start_container st0 "app" "app:latest" 80 [] [depD1, depD2]
        none none none engStartOk).2.2).filterMap rwProj
      = [RW.run "d1", RW.wait "d1", RW.run "d2", RW.wait "d2", RW.prim] := by
  exact dependency_order st0 "app" "app:latest" 80 [] [depD1, depD2]
    none none none engStartOk
    [⟨"d1", "qa-dep-d1", 1001⟩, ⟨"d2", "qa-dep-d2", 1002⟩]
    [Event.pullImage "img1", Event.runDep "d1", Event.attachAlias "d1",
     Event.waitDep "d1" 2000, Event.pullImage "img2", Event.runDep "d2",
     Event.attachAlias "d2", Event.waitDep "d2" 30000]
    (by decide) rfl rfl rfl

/-! ### Claim C8: cleanup with a zero age threshold -/

lemma eraseA_cons_of_not_mem (k : String) (md : Metadata)
    (rest : List (String × Metadata)) (h : k ∉ rest.map Prod.fst) :
    eraseA ((k, md) :: rest) k = rest := by
  unfold eraseA
  simp only [List.filter_cons, bne_self_eq_false, Bool.false_eq_true,
    if_false]
  refine List.filter_eq_self.mpr (fun a ha => ?_)
  have hne : a.1 ≠ k := fun he => h (he ▸ List.mem_map_of_mem Prod.fst ha)
  simpa using hne

lemma cleanupGo_all_old (now : Nat) :
    ∀ (items : List (String × Metadata)) (st : DockerManager),
      st.containers = items →
      (items.map Prod.fst).Nodup →
      (∀ p ∈ items, p.2.created_at < now) →
      cleanupGo st items (List.replicate items.length StopEngine.allOk) now 0
        = (items.map Prod.fst, [], { st with containers := [] })
  | [], st, hc, _, _ => by
      cases st
      simp only at hc
      subst hc
      rfl
  | (k, md) :: rest, st, hc, hnd, hold => by
      have hage : now - md.created_at > 0 :=
        Nat.sub_pos_of_lt (hold (k, md) (List.mem_cons_self _ _))
      have hlk : lookupA st.containers k = some md := by
        rw [hc]; simp [lookupA]
      have hknotin : k ∉ rest.map Prod.fst := by
        have := hnd
        simp only [List.map_cons, List.nodup_cons] at this
        exact this.1
      have herase : eraseA st.containers k = rest := by
        rw [hc]; exact eraseA_cons_of_not_mem k md rest hknotin
      have hstop : stop_container st k StopEngine.allOk
          = (Except.ok ⟨k, "stopped", "Container stopped and removed successfully"⟩,
             { st with containers := rest },
             stopAttemptTrace md.container_name EngineResult.ok
               ++ depStopTrace md.dep_containers []
               ++ (match md.network_name with
                   | some n => [Event.removeNetwork n]
                   | none => [])) := by
        unfold stop_container
        rw [hlk, herase]
        rfl
      have hrec := cleanupGo_all_old now rest { st with containers := rest }
        rfl (by
          simp only [List.map_cons, List.nodup_cons] at hnd
          exact hnd.2)
        (fun p hp => hold p (List.mem_cons_of_mem _ hp))
      unfold cleanupGo
      simp only [List.length_cons, List.replicate_succ, List.headD_cons,
        List.tail_cons]
      rw [if_pos hage]
      simp only [hstop]
      rw [hrec]
      simp

/-- C8 (amended): `cleanup_stale_containers` with `max_age_seconds = 0`
tears down every tracked instance whose age is *strictly positive*
(stopping it, removing it from tracking and counting it in the cleaned
result), but — because the age comparison is the strict `age > 0` — an
instance whose age is exactly zero seconds is not torn down. -/
theorem cleanup_zero_age (st : DockerManager) (now : Nat)
    (hnd : (st.containers.map Prod.fst).Nodup)
    (hold : ∀ p ∈ st.containers, p.2.created_at < now) :
    cleanup_stale_containers st
        (List.replicate st.containers.length StopEngine.allOk) now 0
      = (⟨st.containers.length, st.containers.map Prod.fst, []⟩,
         { st with containers := [] }) := by
  unfold cleanup_stale_containers
  rw [cleanupGo_all_old now st.containers st rfl hnd hold]
  simp

/-- C8, counterexample: an instance created at the very time of the
cleanup call (age exactly 0) is *not* torn down by
`cleanup_stale_containers` with `max_age_seconds = 0`: nothing is cleaned
and the instance stays tracked, contradicting "every tracked instance ...
regardless of its age". -/
theorem cleanup_zero_age_cex :
    cleanup_stale_containers stOne [StopEngine.allOk] 50 0
      = (⟨0, [], []⟩, stOne) := by
  rfl

/-- C8, witness: one second later every instance of the same state is
strictly older than the call time, and the cleanup with threshold 0 tears
everything down. -/
theorem cleanup_zero_age_witness :
    cleanup_stale_containers stOne
        (List.replicate stOne.containers.length StopEngine.allOk) 51 0
      = (⟨1, ["abc"], []⟩, ⟨[], 10, "localhost"⟩) := by
  have h := cleanup_zero_age stOne 51 (by decide) (by decide)
  exact h

/-! ### Claim C9: freshness of the generated instance id -/

/-- C9 (amended): the generated instance id is taken from the engine
(`shortuuid.uuid()[:8]`) *without* any uniqueness check against the
tracking map; provided the generated id does not collide with a currently
tracked id, a successful provisioning returns that id, which is distinct
from every tracked id, and appends it to the tracking map.  (On a
collision the new metadata silently overwrites the tracked instance
instead — see the counterexample.) -/
theorem instance_id_fresh (st : DockerManager) (image_id image_name : String)
    (exposed_port : Nat) (env : List String) (dependencies : List DepConfig)
    (host_port : Option Nat) (command entrypoint : Option (List String))
    (eng : StartEngine) (r : StartResult) (st1 : DockerManager)
    (t : List Event)
    (hfresh : memA st.containers eng.genId = false)
    (h : start_container st image_id image_name exposed_port env dependencies
        host_port command entrypoint eng = (Except.ok r, st1, t)) :
    r.instance_id = eng.genId ∧
    memA st.containers r.instance_id = false ∧
    st1.containers.map Prod.fst = st.containers.map Prod.fst ++ [r.instance_id] ∧
    memA st1.containers r.instance_id = true := by
  by_cases hcap : st.containers.length ≥ st.max_containers
  · simp [start_container, hcap] at h
  cases hp : eng.pullPrimary with
  | some m => simp [start_container, hcap, hp] at h
  | none =>
    rcases hr : runDeps dependencies eng.depEngines with ⟨r0, dt⟩
    cases r0 with
    | error m => simp [start_container, hcap, hp, hr] at h
    | ok infos =>
      cases hq : eng.runPrimary with
      | some m => simp [start_container, hcap, hp, hr, hq] at h
      | none =>
        simp only [start_container, hcap, hp, hr, hq, if_false, ge_iff_le,
          ite_false, Prod.mk.injEq, Except.ok.injEq] at h
        obtain ⟨h1, h2, h3⟩ := h
        have hid : r.instance_id = eng.genId := by rw [← h1]
        have hmap : st1.containers.map Prod.fst
            = st.containers.map Prod.fst ++ [eng.genId] := by
          rw [← h2]
          simp [insertA, hfresh]
        have hfresh2 : (st.containers.any fun p => p.1 == eng.genId) = false :=
          hfresh
        have hmem : memA st1.containers eng.genId = true := by
          rw [← h2]
          simp [insertA, memA, hfresh2]
        refine ⟨hid, ?_, ?_, ?_⟩
        · rw [hid]; exact hfresh
        · rw [hid]; exact hmap
        · rw [hid]; exact hmem

/-- C9, counterexample: the code never checks the generated id against the
tracking map; when the engine's `shortuuid` value collides with the
already-tracked id `abc`, `start_container` succeeds and returns the id
`abc`, which is *not* distinct from the ids tracked at that moment, and
the prior instance is silently overwritten (the map still has exactly one
entry) rather than the id being reused only after a purge. -/
theorem instance_id_fresh_cex :
    memA stOne.containers "abc" = true ∧
    (start_container stOne "app" "app:latest" 80 [] [] none none none
        engClash).1
      = Except.ok ⟨"abc", "app", "cid2", "qa-app-abc", "app:latest", 9000, 80,
          "http://localhost:9000", "running", 99⟩ ∧
    (start_container stOne "app" "app:latest" 80 [] [] none none none
        engClash).2.1.containers.map Prod.fst = ["abc"] := by
  exact ⟨rfl, rfl, rfl⟩

/-- C9, witness: with the fresh generated id `zzz99999`, provisioning on
the one-instance state returns an id distinct from all tracked ids and
appends it to the map. -/
theorem instance_id_fresh_witness :
    memA stOne.containers "zzz99999" = false ∧
    (start_container stOne "app" "app:latest" 80 [] [] none none none
        engFresh).2.1.containers.map Prod.fst = ["abc", "zzz99999"] := by
  have h := instance_id_fresh stOne "app" "app:latest" 80 [] [] none none none
    engFresh
    ⟨"zzz99999", "app", "cid2", "qa-app-zzz99999", "app:latest", 9000, 80,
      "http://localhost:9000", "running", 99⟩
    (start_container stOne "app" "app:latest" 80 [] [] none none none
      engFresh).2.1
    (start_container stOne "app" "app:latest" 80 [] [] none none none
      engFresh).2.2
    rfl rfl
  exact ⟨h.2.1, h.2.2.1⟩

end QaTestSuit
